import Mathlib

/-!
Verification of the token acquisition and caching workflow of the
rhoai-auth-demo repository (scripts/interactive-demo.py), against its
natural-language specification.

The embedding models the Python functions `get_token_cache_path`,
`load_cached_token`, `save_token_to_cache`, `get_token` and
`decode_token_claims` of class `InteractiveLlamaStackDemo`, together with
the library-level operations they rely on: Python dict/truthiness
semantics, `str.split`, `base64.b64decode` (non-strict mode, which
discards characters outside the standard alphabet and tolerates excess
padding), UTF-8 decoding, `json.loads`, and `hashlib.md5`.

Modelling conventions:
- Timestamps (`time.time()`) are modelled as exact rationals; Python uses
  binary floating point, whose rounding plays no role in any property at
  stake (all offsets are small integer numbers of seconds).
- JSON values (`Json` below) model Python objects produced by `json.load`;
  `Json.null` models Python `None`, so `dict.get` with no default is
  modelled as lookup defaulting to `Json.null`.
- The on-disk cache file is modelled by `CacheContent`: `CacheContent.text`
  holds raw (possibly malformed) file text which `load_cached_token` must
  parse, while `CacheContent.data` holds the JSON value written by
  `save_token_to_cache` via `json.dump` (Python `json.load` inverts
  `json.dump` on the values written here, so the value is stored directly).
- Exceptions are modelled by `Option`/explicit fallthrough: every Python
  `try`/`except` branch in the source becomes the corresponding `none` or
  default-value case.
-/

namespace RhoaiAuthDemo

/-- JSON values, as produced by Python `json.loads`; also used to model the
Python objects handled by the scripts (`Json.null` models Python `None`). -/
inductive Json where
  | null
  | bool (b : Bool)
  | num (q : ℚ)
  | str (s : String)
  | arr (xs : List Json)
  | obj (kvs : List (String × Json))

/-- Python truthiness (`bool(x)`) for the values modelled by `Json`:
`None`, `False`, `0`, `""`, `[]` and the empty dict are falsy. -/
def pyTruthy : Json → Bool
  | .null => false
  | .bool b => b
  | .num q => decide (q ≠ 0)
  | .str s => !s.data.isEmpty
  | .arr xs => !xs.isEmpty
  | .obj kvs => !kvs.isEmpty

/-- Python `dict.get(key, default)` on the association list of a JSON
object. Later bindings shadow earlier ones, as in a Python dict built by
insertion order. -/
def pyDictGet (kvs : List (String × Json)) (key : String) (dflt : Json) : Json :=
  (kvs.foldl (fun acc kv => if kv.1 = key then some kv.2 else acc) none).getD dflt

/-- Python `str.split(sep)` for a single-character separator, over the
character list of the string: splits at every occurrence, keeping empty
segments (so the result always has one more segment than separators). -/
def pySplit (sep : Char) : List Char → List Char → List (List Char)
  | [], acc => [acc.reverse]
  | c :: rest, acc =>
    if c = sep then acc.reverse :: pySplit sep rest []
    else pySplit sep rest (c :: acc)

/-- Value of a character in the standard base64 alphabet
(`A-Z`, `a-z`, `0-9`, `+`, `/`), or `none` for any other character. -/
def b64CharVal (c : Char) : Option ℕ :=
  let n := c.toNat
  if 65 ≤ n ∧ n ≤ 90 then some (n - 65)
  else if 97 ≤ n ∧ n ≤ 122 then some (n - 71)
  else if 48 ≤ n ∧ n ≤ 57 then some (n + 4)
  else if n = 43 then some 62
  else if n = 47 then some 63
  else none

/-- One step state of CPython `binascii.a2b_base64` in non-strict mode:
position inside the current 4-character group, the pending high bits, the
number of padding characters seen since the last data character, and the
bytes emitted so far (in reverse order). -/
structure B64State where
  quadPos : ℕ
  leftBits : ℕ
  pads : ℕ
  out : List ℕ

/-- CPython `base64.b64decode` in its default non-strict mode, character by
character: characters outside the alphabet are discarded; bytes are emitted
eagerly as the 2nd, 3rd and 4th data character of each group arrive; a `=`
is ignored before two data characters of a group have been seen, and once
the group positions plus padding reach four the decode ends successfully,
discarding the rest of the input; input ending inside a group is an error
(`binascii.Error`), modelled as `none`. -/
def b64decodeRun : List Char → B64State → Option (List ℕ)
  | [], st => if st.quadPos = 0 then some st.out.reverse else none
  | c :: rest, st =>
    if c = '=' then
      if 2 ≤ st.quadPos then
        if 4 ≤ st.quadPos + st.pads + 1 then some st.out.reverse
        else b64decodeRun rest { st with pads := st.pads + 1 }
      else b64decodeRun rest st
    else
      match b64CharVal c with
      | none => b64decodeRun rest st
      | some v =>
        match st.quadPos with
        | 0 => b64decodeRun rest { quadPos := 1, leftBits := v, pads := 0, out := st.out }
        | 1 => b64decodeRun rest
            { quadPos := 2, leftBits := v % 16,
              pads := 0, out := ((st.leftBits * 4) + v / 16) :: st.out }
        | 2 => b64decodeRun rest
            { quadPos := 3, leftBits := v % 4,
              pads := 0, out := ((st.leftBits * 16) + v / 4) :: st.out }
        | _ => b64decodeRun rest
            { quadPos := 0, leftBits := 0,
              pads := 0, out := ((st.leftBits * 64) + v) :: st.out }

/-- CPython `base64.b64decode(s)` (non-strict), from the initial state. -/
def b64decodePy (cs : List Char) : Option (List ℕ) :=
  b64decodeRun cs ⟨0, 0, 0, []⟩

/-- UTF-8 encoding of one character, as Python `str.encode()` produces. -/
def utf8EncodeChar (c : Char) : List ℕ :=
  let n := c.toNat
  if n < 128 then [n]
  else if n < 2048 then [192 + n / 64, 128 + n % 64]
  else if n < 65536 then [224 + n / 4096, 128 + (n / 64) % 64, 128 + n % 64]
  else [240 + n / 262144, 128 + (n / 4096) % 64, 128 + (n / 64) % 64, 128 + n % 64]

/-- UTF-8 byte sequence of a string (Python `str.encode()`). -/
def strBytes (s : String) : List ℕ :=
  s.data.foldr (fun c acc => utf8EncodeChar c ++ acc) []

/-- Strict UTF-8 decoding of a byte sequence into characters, as Python
performs when `json.loads` is handed `bytes`: rejects truncated sequences,
stray continuation bytes, overlong encodings, surrogates and values above
U+10FFFF. Structured on fuel; one byte consumes at least one fuel unit. -/
def utf8DecChars : ℕ → List ℕ → Option (List Char)
  | 0, _ => none
  | _, [] => some []
  | fuel + 1, b :: rest =>
    if b < 128 then
      (utf8DecChars fuel rest).map (fun cs => Char.ofNat b :: cs)
    else if 194 ≤ b ∧ b ≤ 223 then
      match rest with
      | b2 :: rest2 =>
        if 128 ≤ b2 ∧ b2 ≤ 191 then
          (utf8DecChars fuel rest2).map
            (fun cs => Char.ofNat ((b - 192) * 64 + (b2 - 128)) :: cs)
        else none
      | _ => none
    else if 224 ≤ b ∧ b ≤ 239 then
      match rest with
      | b2 :: b3 :: rest2 =>
        let lo2 := if b = 224 then 160 else 128
        let hi2 := if b = 237 then 159 else 191
        if (lo2 ≤ b2 ∧ b2 ≤ hi2) ∧ (128 ≤ b3 ∧ b3 ≤ 191) then
          (utf8DecChars fuel rest2).map
            (fun cs => Char.ofNat ((b - 224) * 4096 + (b2 - 128) * 64 + (b3 - 128)) :: cs)
        else none
      | _ => none
    else if 240 ≤ b ∧ b ≤ 244 then
      match rest with
      | b2 :: b3 :: b4 :: rest2 =>
        let lo2 := if b = 240 then 144 else 128
        let hi2 := if b = 244 then 143 else 191
        if (lo2 ≤ b2 ∧ b2 ≤ hi2) ∧ (128 ≤ b3 ∧ b3 ≤ 191) ∧ (128 ≤ b4 ∧ b4 ≤ 191) then
          (utf8DecChars fuel rest2).map
            (fun cs =>
              Char.ofNat ((b - 240) * 262144 + (b2 - 128) * 4096 + (b3 - 128) * 64 + (b4 - 128)) :: cs)
        else none
      | _ => none
    else none

/-- Strict UTF-8 decoding of a byte sequence into a string, or `none` on a
`UnicodeDecodeError`. -/
def utf8Dec (bs : List ℕ) : Option String :=
  (utf8DecChars (bs.length + 1) bs).map String.mk

/-- The opening curly brace character. -/
def lbrace : Char := Char.ofNat 123

/-- The closing curly brace character. -/
def rbrace : Char := Char.ofNat 125

/-- JSON insignificant whitespace (space, tab, newline, carriage return),
skipped between tokens by Python `json.loads`. -/
def jsonSkipWs : List Char → List Char
  | [] => []
  | c :: rest =>
    if c = ' ' ∨ c = Char.ofNat 9 ∨ c = Char.ofNat 10 ∨ c = Char.ofNat 13 then jsonSkipWs rest
    else c :: rest

/-- Value of a hexadecimal digit, or `none`. -/
def hexVal (c : Char) : Option ℕ :=
  let n := c.toNat
  if 48 ≤ n ∧ n ≤ 57 then some (n - 48)
  else if 97 ≤ n ∧ n ≤ 102 then some (n - 87)
  else if 65 ≤ n ∧ n ≤ 70 then some (n - 55)
  else none

/-- Value of four hexadecimal digits (a `\u` escape). -/
def hexQuad (a b c d : Char) : Option ℕ :=
  match hexVal a, hexVal b, hexVal c, hexVal d with
  | some x, some y, some z, some w => some (x * 4096 + y * 256 + z * 16 + w)
  | _, _, _, _ => none

/-- Body of a JSON string literal after the opening quote, with the usual
escapes; unescaped control characters are rejected, `\u` surrogate pairs
are combined (a lone surrogate is rejected, slightly stricter than Python,
which keeps it; no property at stake involves one). -/
def jsonStrBody : List Char → List Char → Option (String × List Char)
  | [], _ => none
  | '"' :: rest, acc => some (String.mk acc.reverse, rest)
  | '\\' :: rest, acc =>
    match rest with
    | '"' :: r => jsonStrBody r ('"' :: acc)
    | '\\' :: r => jsonStrBody r ('\\' :: acc)
    | '/' :: r => jsonStrBody r ('/' :: acc)
    | 'b' :: r => jsonStrBody r (Char.ofNat 8 :: acc)
    | 'f' :: r => jsonStrBody r (Char.ofNat 12 :: acc)
    | 'n' :: r => jsonStrBody r (Char.ofNat 10 :: acc)
    | 'r' :: r => jsonStrBody r (Char.ofNat 13 :: acc)
    | 't' :: r => jsonStrBody r (Char.ofNat 9 :: acc)
    | 'u' :: h1 :: h2 :: h3 :: h4 :: r =>
      match hexQuad h1 h2 h3 h4 with
      | none => none
      | some n =>
        if n < 55296 ∨ 57343 < n then jsonStrBody r (Char.ofNat n :: acc)
        else if n ≤ 56319 then
          match r with
          | '\\' :: 'u' :: g1 :: g2 :: g3 :: g4 :: r2 =>
            match hexQuad g1 g2 g3 g4 with
            | some m =>
              if 56320 ≤ m ∧ m ≤ 57343 then
                jsonStrBody r2 (Char.ofNat (65536 + (n - 55296) * 1024 + (m - 56320)) :: acc)
              else none
            | none => none
          | _ => none
        else none
    | _ => none
  | c :: rest, acc => if c.toNat < 32 then none else jsonStrBody rest (c :: acc)

/-- Longest prefix of decimal digits, and the remaining characters. -/
def digitSpan : List Char → List Char × List Char
  | [] => ([], [])
  | c :: rest =>
    if c.isDigit then
      let (ds, r) := digitSpan rest
      (c :: ds, r)
    else ([], c :: rest)

/-- Numeric value of a digit sequence. -/
def digitsVal (ds : List Char) : ℕ :=
  ds.foldl (fun acc c => acc * 10 + (c.toNat - 48)) 0

/-- Integer part of a JSON number: a single `0`, or a nonzero digit
followed by digits (JSON forbids leading zeros). -/
def jsonIntPart : List Char → Option (List Char × List Char)
  | '0' :: rest => some ([ '0' ], rest)
  | c :: rest =>
    if c.isDigit then
      let (ds, r) := digitSpan rest
      some (c :: ds, r)
    else none
  | [] => none

/-- Exact value of a JSON number with signed mantissa `m`, `fracLen`
digits after the decimal point, and decimal exponent `e`. -/
def jsonNumVal (m : ℤ) (fracLen : ℕ) (e : ℤ) : ℚ :=
  mkRat (m * 10 ^ e.toNat) (10 ^ (fracLen + (-e).toNat))

/-- Optional exponent part of a JSON number, and final value. -/
def jsonNumFinish (neg : Bool) (ids fds : List Char) (cs : List Char) :
    Option (ℚ × List Char) :=
  let mant : ℤ := (digitsVal (ids ++ fds) : ℤ)
  let signed : ℤ := if neg then -mant else mant
  match cs with
  | c :: rest =>
    if c = 'e' ∨ c = 'E' then
      let (esign, rest2) : Bool × List Char :=
        match rest with
        | '+' :: r => (false, r)
        | '-' :: r => (true, r)
        | _ => (false, rest)
      let (eds, rest3) := digitSpan rest2
      if eds.isEmpty then none
      else
        let e : ℤ := (if esign then -1 else 1) * (digitsVal eds : ℤ)
        some (jsonNumVal signed fds.length e, rest3)
    else some (jsonNumVal signed fds.length 0, c :: rest)
  | [] => some (jsonNumVal signed fds.length 0, [])

/-- A JSON number starting at the given characters (exact decimal value;
the non-standard `NaN`/`Infinity` extensions Python accepts are omitted,
no property at stake involves them). -/
def jsonNumAt (cs : List Char) : Option (ℚ × List Char) :=
  let (neg, cs1) : Bool × List Char :=
    match cs with
    | '-' :: rest => (true, rest)
    | _ => (false, cs)
  match jsonIntPart cs1 with
  | none => none
  | some (ids, cs2) =>
    match cs2 with
    | '.' :: rest =>
      let (fds, cs3) := digitSpan rest
      if fds.isEmpty then none else jsonNumFinish neg ids fds cs3
    | _ => jsonNumFinish neg ids [] cs2

mutual

/-- A JSON value starting at the given characters (Python `json.loads`
grammar), on fuel; returns the value and the unconsumed characters. -/
def jsonVal : ℕ → List Char → Option (Json × List Char)
  | 0, _ => none
  | fuel + 1, cs =>
    match jsonSkipWs cs with
    | [] => none
    | 'n' :: 'u' :: 'l' :: 'l' :: rest => some (.null, rest)
    | 't' :: 'r' :: 'u' :: 'e' :: rest => some (.bool true, rest)
    | 'f' :: 'a' :: 'l' :: 's' :: 'e' :: rest => some (.bool false, rest)
    | '"' :: rest => (jsonStrBody rest []).map (fun p => (.str p.1, p.2))
    | '[' :: rest =>
      match jsonSkipWs rest with
      | ']' :: r2 => some (.arr [], r2)
      | r2 => jsonElems fuel r2 []
    | c :: rest =>
      if c = lbrace then
        match jsonSkipWs rest with
        | c2 :: r2 =>
          if c2 = rbrace then some (.obj [], r2)
          else jsonMembers fuel (c2 :: r2) []
        | [] => none
      else if c = '-' ∨ c.isDigit then
        (jsonNumAt (c :: rest)).map (fun p => (.num p.1, p.2))
      else none

/-- Elements of a JSON array after the opening bracket (nonempty case). -/
def jsonElems : ℕ → List Char → List Json → Option (Json × List Char)
  | 0, _, _ => none
  | fuel + 1, cs, acc =>
    match jsonVal fuel cs with
    | none => none
    | some (v, rest) =>
      match jsonSkipWs rest with
      | ',' :: r2 => jsonElems fuel r2 (v :: acc)
      | ']' :: r2 => some (.arr (v :: acc).reverse, r2)
      | _ => none

/-- Members of a JSON object after the opening brace (nonempty case). -/
def jsonMembers : ℕ → List Char → List (String × Json) → Option (Json × List Char)
  | 0, _, _ => none
  | fuel + 1, cs, acc =>
    match jsonSkipWs cs with
    | '"' :: rest =>
      match jsonStrBody rest [] with
      | none => none
      | some (k, r2) =>
        match jsonSkipWs r2 with
        | ':' :: r3 =>
          match jsonVal fuel r3 with
          | none => none
          | some (v, r4) =>
            match jsonSkipWs r4 with
            | ',' :: r5 => jsonMembers fuel r5 ((k, v) :: acc)
            | c :: r5 =>
              if c = rbrace then some (.obj ((k, v) :: acc).reverse, r5) else none
            | [] => none
        | _ => none
    | _ => none

end

/-- Python `json.loads` on a string: parse one JSON value and require only
whitespace to remain; `none` models a raised `JSONDecodeError`. The fuel
bound is generous: each unit of fuel spent without consuming input leads
to a child parse that consumes at least one character. -/
def jsonLoads (s : String) : Option Json :=
  match jsonVal (2 * s.data.length + 8) s.data with
  | some (v, rest) => if (jsonSkipWs rest).isEmpty then some v else none
  | none => none

/-- 32-bit left rotation. -/
def rotl32 (x s : ℕ) : ℕ :=
  ((x <<< s) ||| (x >>> (32 - s))) % 4294967296

/-- The 64 MD5 sine-derived constants (RFC 1321, `T[i+1]`). -/
def md5K : List ℕ :=
  [3614090360, 3905402710, 606105819, 3250441966, 4118548399, 1200080426,
   2821735955, 4249261313, 1770035416, 2336552879, 4294925233, 2304563134,
   1804603682, 4254626195, 2792965006, 1236535329, 4129170786, 3225465664,
   643717713, 3921069994, 3593408605, 38016083, 3634488961, 3889429448,
   568446438, 3275163606, 4107603335, 1163531501, 2850285829, 4243563512,
   1735328473, 2368359562, 4294588738, 2272392833, 1839030562, 4259657740,
   2763975236, 1272893353, 4139469664, 3200236656, 681279174, 3936430074,
   3572445317, 76029189, 3654602809, 3873151461, 530742520, 3299628645,
   4096336452, 1126891415, 2878612391, 4237533241, 1700485571, 2399980690,
   4293915773, 2240044497, 1873313359, 4264355552, 2734768916, 1309151649,
   4149444226, 3174756917, 718787259, 3951481745]

/-- The 64 MD5 per-round rotation amounts. -/
def md5S : List ℕ :=
  [7, 12, 17, 22, 7, 12, 17, 22, 7, 12, 17, 22, 7, 12, 17, 22,
   5, 9, 14, 20, 5, 9, 14, 20, 5, 9, 14, 20, 5, 9, 14, 20,
   4, 11, 16, 23, 4, 11, 16, 23, 4, 11, 16, 23, 4, 11, 16, 23,
   6, 10, 15, 21, 6, 10, 15, 21, 6, 10, 15, 21, 6, 10, 15, 21]

/-- The MD5 round function for step `i` (F, G, H, I by sixteens). -/
def md5F (i b c d : ℕ) : ℕ :=
  if i < 16 then (b &&& c) ||| ((4294967295 ^^^ b) &&& d)
  else if i < 32 then (d &&& b) ||| ((4294967295 ^^^ d) &&& c)
  else if i < 48 then b ^^^ c ^^^ d
  else c ^^^ (b ||| (4294967295 ^^^ d))

/-- The MD5 message-word index for step `i`. -/
def md5G (i : ℕ) : ℕ :=
  if i < 16 then i
  else if i < 32 then (5 * i + 1) % 16
  else if i < 48 then (3 * i + 5) % 16
  else (7 * i) % 16

/-- Little-endian 32-bit word `j` of a 64-byte chunk. -/
def leWord (bs : List ℕ) (j : ℕ) : ℕ :=
  bs.getD (4 * j) 0 + 256 * bs.getD (4 * j + 1) 0 +
    65536 * bs.getD (4 * j + 2) 0 + 16777216 * bs.getD (4 * j + 3) 0

/-- One MD5 compression of a 64-byte chunk into the running state. -/
def md5Block (st : ℕ × ℕ × ℕ × ℕ) (chunk : List ℕ) : ℕ × ℕ × ℕ × ℕ :=
  let (a0, b0, c0, d0) := st
  let fin := (List.range 64).foldl
    (fun (s : ℕ × ℕ × ℕ × ℕ) i =>
      let (a, b, c, d) := s
      let f := (md5F i b c d + a + md5K.getD i 0 + leWord chunk (md5G i)) % 4294967296
      (d, (b + rotl32 f (md5S.getD i 0)) % 4294967296, b, c))
    (a0, b0, c0, d0)
  ((a0 + fin.1) % 4294967296, (b0 + fin.2.1) % 4294967296,
   (c0 + fin.2.2.1) % 4294967296, (d0 + fin.2.2.2) % 4294967296)

/-- The `k` low-order bytes of `n`, little-endian. -/
def leBytes : ℕ → ℕ → List ℕ
  | 0, _ => []
  | k + 1, n => (n % 256) :: leBytes k (n / 256)

/-- MD5 padding: a `0x80` byte, zeros to 56 mod 64, then the bit length
as a little-endian 64-bit quantity. -/
def md5Pad (msg : List ℕ) : List ℕ :=
  let len := msg.length
  msg ++ [128] ++ List.replicate ((119 - len % 64) % 64) 0 ++ leBytes 8 (8 * len)

/-- Split a byte list into 64-byte chunks (fuel-structured). -/
def chunks64 : ℕ → List ℕ → List (List ℕ)
  | 0, _ => []
  | _, [] => []
  | fuel + 1, l => l.take 64 :: chunks64 fuel (l.drop 64)

/-- The 16-byte MD5 digest of a byte sequence. -/
def md5Digest (msg : List ℕ) : List ℕ :=
  let padded := md5Pad msg
  let st := (chunks64 padded.length padded).foldl md5Block
    (1732584193, 4023233417, 2562383102, 271733878)
  leBytes 4 st.1 ++ leBytes 4 st.2.1 ++ leBytes 4 st.2.2.1 ++ leBytes 4 st.2.2.2

/-- A lowercase hexadecimal digit character. -/
def hexDigitChar (n : ℕ) : Char :=
  Char.ofNat (if n < 10 then 48 + n else 87 + n)

/-- Lowercase hexadecimal rendering of a byte sequence. -/
def bytesToHex (bs : List ℕ) : List Char :=
  bs.foldr (fun b acc => hexDigitChar (b / 16) :: hexDigitChar (b % 16) :: acc) []

/-- Python `hashlib.md5(s.encode()).hexdigest()`. -/
def md5Hexdigest (s : String) : String :=
  String.mk (bytesToHex (md5Digest (strBytes s)))

/-- Python `str.rstrip('/')`: strip all trailing slash characters. -/
def rstripSlashes (s : String) : String :=
  String.mk ((s.data.reverse.dropWhile (fun c => c = '/')).reverse)

/-- The configuration fields of `InteractiveLlamaStackDemo` on which the
token cache depends. -/
structure Demo where
  llamastack_url : String
  keycloak_url : String
  realm : String
  client_id : String
  cache_dir : String

/-- The `__init__` of `InteractiveLlamaStackDemo`: strips trailing slashes
from both URLs, and fixes `realm = "llamastack-demo"` and
`client_id = "llamastack"`. -/
def mkDemo (llamastack_url keycloak_url cache_dir : String) : Demo :=
  { llamastack_url := rstripSlashes llamastack_url
    keycloak_url := rstripSlashes keycloak_url
    realm := "llamastack-demo"
    client_id := "llamastack"
    cache_dir := cache_dir }

/-- The authority/realm fingerprint used in cache file names:
`hashlib.md5(f"{keycloak_url}:{realm}".encode()).hexdigest()[:8]`. -/
def cacheKey (d : Demo) : String :=
  String.mk ((md5Hexdigest (d.keycloak_url ++ ":" ++ d.realm)).data.take 8)

/-- `get_token_cache_path`: `cache_dir / f"token_{username}_{key}.json"`. -/
def get_token_cache_path (d : Demo) (username : String) : String :=
  d.cache_dir ++ "/token_" ++ username ++ "_" ++ cacheKey d ++ ".json"

/-- Contents of a persisted cache file: raw (possibly malformed) text, or
the JSON value written by `json.dump` (which `json.load` reads back as
itself). -/
inductive CacheContent where
  | text (s : String)
  | data (j : Json)

/-- The cache directory, as a partial map from file path to contents. -/
def FS := String → Option CacheContent

/-- An empty cache directory. -/
def fsEmpty : FS := fun _ => none

/-- Writing (or overwriting) one cache file. -/
def fsUpdate (fs : FS) (p : String) (v : CacheContent) : FS :=
  fun q => if q = p then some v else fs q

/-- Reading a cache file with `json.load`: raw text is parsed (possibly
failing), a value written by `json.dump` reads back as itself. -/
def contentJson : CacheContent → Option Json
  | .text s => jsonLoads s
  | .data j => some j

/-- `decode_token_claims`: split the token on dots; unless there are
exactly three segments, return the empty dict; otherwise append
`'=' * (4 - len % 4)` to the middle segment, `base64.b64decode` it
(non-strict standard alphabet) and `json.loads` the resulting bytes
(UTF-8); every failure is caught and yields the empty dict. Total by
construction: no input raises. -/
def decode_token_claims (token : String) : Json :=
  let parts := pySplit '.' token.data []
  if parts.length = 3 then
    let payload := parts.getD 1 []
    let padded := payload ++ List.replicate (4 - payload.length % 4) '='
    match b64decodePy padded with
    | none => .obj []
    | some bytes =>
      match utf8Dec bytes with
      | none => .obj []
      | some text =>
        match jsonLoads text with
        | none => .obj []
        | some j => j
  else .obj []

/-- Python `expires_at - 60`: numbers and booleans subtract (a Python bool
is an int), anything else raises `TypeError`, caught by the surrounding
handler. -/
def pyNumSub60 : Json → Option ℚ
  | .num q => some (q - 60)
  | .bool b => some ((if b then 1 else 0) - 60)
  | _ => none

/-- `load_cached_token`: return the cached token for `username` if the
cache file exists, parses as JSON, holds a truthy `access_token` whose
`expires_at` (default 0) leaves more than the 60-second buffer at `now`,
and whose claims decode to something truthy; otherwise `None`. Every
exception inside the `try` is caught and yields `None`. -/
def load_cached_token (d : Demo) (fs : FS) (now : ℚ) (username : String) : Option String :=
  match fs (get_token_cache_path d username) with
  | none => none
  | some content =>
    match contentJson content with
    | none => none
    | some j =>
      match j with
      | .obj kvs =>
        let token := pyDictGet kvs "access_token" .null
        let expires_at := pyDictGet kvs "expires_at" (.num 0)
        if pyTruthy token then
          match pyNumSub60 expires_at with
          | none => none
          | some e =>
            if now < e then
              match token with
              | .str s => if pyTruthy (decode_token_claims s) then some s else none
              | _ => none
            else none
        else none
      | _ => none

/-- Python `time.time() + expires_in`: numbers and booleans add, anything
else raises `TypeError` (caught by the surrounding handler). -/
def pyNumAdd (now : ℚ) : Json → Option ℚ
  | .num q => some (now + q)
  | .bool b => some (now + (if b then 1 else 0))
  | _ => none

/-- `save_token_to_cache`: writes the cache entry
`{access_token, expires_at = now + expires_in, cached_at = now}`. The
whole body runs inside `try`, so a failing timestamp addition or a
failing file write (`writeOk = false`) leaves the cache unchanged and
raises nothing. -/
def save_token_to_cache (d : Demo) (fs : FS) (now : ℚ) (username : String)
    (token : Json) (expires_in : Json) (writeOk : Bool) : FS :=
  match pyNumAdd now expires_in with
  | none => fs
  | some expires_at =>
    if writeOk then
      fsUpdate fs (get_token_cache_path d username)
        (.data (.obj [("access_token", token), ("expires_at", .num expires_at),
                      ("cached_at", .num now)]))
    else fs

/-- An HTTP response from the authority token endpoint. -/
structure TokenResponse where
  status : ℕ
  body : Json

/-- `get_token`: POST to the token endpoint (the parsed response, or a
network/parse exception, is the `resp` argument); on HTTP 200 read
`access_token` (default `None`) and `expires_in` (default 300) from the
body, cache the token, and return it; any other status, or an exception,
yields `None` (`Json.null`). `password` and `client_secret` only shape
the request. -/
def get_token (d : Demo) (fs : FS) (now : ℚ)
    (username password client_secret : String)
    (resp : Option TokenResponse) (writeOk : Bool) : Json × FS :=
  match resp with
  | none => (.null, fs)
  | some r =>
    if r.status = 200 then
      match r.body with
      | .obj kvs =>
        let access_token := pyDictGet kvs "access_token" .null
        let expires_in := pyDictGet kvs "expires_in" (.num 300)
        (access_token, save_token_to_cache d fs now username access_token expires_in writeOk)
      | _ => (.null, fs)
    else (.null, fs)

/-- Result of one token resolution: the token obtained (`Json.null` on
failure), the resulting cache state, and how many POSTs were made to the
authority token endpoint. -/
structure ResolveOut where
  token : Json
  fs : FS
  authorityCalls : ℕ

/-- The token-resolution step of `run_demo`: consult the cache when
enabled; on a miss, obtain credentials (outside the model) and call
`get_token`, which performs exactly one POST to the authority token
endpoint; a hit performs none. -/
def resolveToken (d : Demo) (fs : FS) (now : ℚ)
    (username password client_secret : String)
    (resp : Option TokenResponse) (writeOk useCache : Bool) : ResolveOut :=
  let cached := if useCache then load_cached_token d fs now username else none
  match cached with
  | some tok => ⟨.str tok, fs, 0⟩
  | none =>
    let r := get_token d fs now username password client_secret resp writeOk
    ⟨r.1, r.2, 1⟩

/-- A character of the RFC 4648 base64url alphabet. -/
def b64urlChar (v : ℕ) : Char :=
  if v < 26 then Char.ofNat (65 + v)
  else if v < 52 then Char.ofNat (97 + v - 26)
  else if v < 62 then Char.ofNat (v - 4)
  else if v = 62 then '-' else '_'

/-- Modelled from the spec: the unpadded base64url encoding in which the
spec's token claim envelope is written (the JWT segment encoding). Used
only to state that a token segment is the base64url encoding of a JSON
payload; the code's own decoder is `decode_token_claims` above. -/
def b64urlEncode : List ℕ → List Char
  | b1 :: b2 :: b3 :: rest =>
    b64urlChar (b1 / 4) :: b64urlChar ((b1 % 4) * 16 + b2 / 16) ::
      b64urlChar ((b2 % 16) * 4 + b3 / 64) :: b64urlChar (b3 % 64) :: b64urlEncode rest
  | [b1, b2] =>
    [b64urlChar (b1 / 4), b64urlChar ((b1 % 4) * 16 + b2 / 16), b64urlChar ((b2 % 16) * 4)]
  | [b1] => [b64urlChar (b1 / 4), b64urlChar ((b1 % 4) * 16)]
  | [] => []

/-- A demo configuration with the source's default URLs. -/
def demo0 : Demo :=
  mkDemo "http://localhost:8321" "https://kc-keycloak.com" "~/.cache/llamastack-demo"

/-- A structurally well-formed token: three dot-separated segments whose
middle segment is the base64 encoding of the JSON object with a single
claim `sub = "alice"`. -/
def goodTok : String := "h.eyJzdWIiOiJhbGljZSJ9.s"

/-- A malformed token: a single segment. -/
def badSegTok : String := "bad"

/-- A three-segment token whose middle segment is the unpadded base64url
encoding of the JSON object with a single claim `sub = "?aa"`; the
encoding contains the base64url alphabet character `_`. -/
def urlsafeTok : String := "hh.eyJzdWIiOiI_YWEifQ.ss"

/-- First URL of a truncated-MD5 fingerprint collision pair. -/
def collUrl1 : String := "https://kc90810.example.com"

/-- Second URL of a truncated-MD5 fingerprint collision pair. -/
def collUrl2 : String := "https://kc131579.example.com"

/-- A successful HTTP 200 token-endpoint response carrying `access_token`
and `expires_in`. -/
def okResp (tok : String) (E : ℚ) : Option TokenResponse :=
  some ⟨200, .obj [("access_token", .str tok), ("expires_in", .num E)]⟩

/-- The end-to-end scenario: principal `alice` resolves a token at `t1`
from an empty cache, again at `t2`, and again at `t3`, with the authority
always answering HTTP 200 with `tok` and `expires_in = 300`. -/
def aliceScenario (d : Demo) (t1 t2 t3 : ℚ) (tok pw cs : String) :
    ResolveOut × ResolveOut × ResolveOut :=
  let r1 := resolveToken d fsEmpty t1 "alice" pw cs (okResp tok 300) true true
  let r2 := resolveToken d r1.fs t2 "alice" pw cs (okResp tok 300) true true
  let r3 := resolveToken d r2.fs t3 "alice" pw cs (okResp tok 300) true true
  (r1, r2, r3)

/-- A token whose claims decode to something truthy is a nonempty string
(an empty token has one dot-separated segment, so decoding yields the
falsy empty dict). -/
lemma ne_empty_of_truthy_decode (s : String)
    (h : pyTruthy (decode_token_claims s) = true) : (!s.data.isEmpty) = true := by
  cases s with
  | mk data =>
    cases data with
    | nil => simp [decode_token_claims, pySplit, pyTruthy] at h
    | cons c cs => simp

/-- Reading back the file just written. -/
lemma fsUpdate_self (fs : FS) (p : String) (v : CacheContent) :
    fsUpdate fs p v p = some v := by
  simp [fsUpdate]

/-- A store with a numeric lifetime and a working file write is exactly an
overwrite of the user's cache path with the entry
`{access_token, expires_at = t + E, cached_at = t}`. -/
lemma save_num_eq (d : Demo) (fs : FS) (t : ℚ) (u : String) (tok : Json) (E : ℚ) :
    save_token_to_cache d fs t u tok (.num E) true
      = fsUpdate fs (get_token_cache_path d u)
          (.data (.obj [("access_token", tok), ("expires_at", .num (t + E)),
                        ("cached_at", .num t)])) := rfl

/-- Closed form of a lookup on a cache whose file for `u` holds a string
token with numeric timestamps. -/
lemma load_update_closed (d : Demo) (fs : FS) (now : ℚ) (u s : String) (ea ca : ℚ) :
    load_cached_token d
        (fsUpdate fs (get_token_cache_path d u)
          (.data (.obj [("access_token", .str s), ("expires_at", .num ea),
                        ("cached_at", .num ca)]))) now u
      = if (!s.data.isEmpty) = true then
          (if now < ea - 60 then
            (if pyTruthy (decode_token_claims s) = true then some s else none)
          else none)
        else none := by
  unfold load_cached_token
  rw [fsUpdate_self]
  rfl

/-- Closed form of a lookup performed on a cache state produced by a
store: the store wrote `expires_at = t + E`, and the lookup at `now`
succeeds exactly when the token string is nonempty, `now < t + E - 60`,
and the claims decode to something truthy. -/
lemma load_save_closed (d : Demo) (fs : FS) (t now : ℚ) (u s : String) (E : ℚ) :
    load_cached_token d (save_token_to_cache d fs t u (.str s) (.num E) true) now u
      = if (!s.data.isEmpty) = true then
          (if now < t + E - 60 then
            (if pyTruthy (decode_token_claims s) = true then some s else none)
          else none)
        else none := by
  rw [save_num_eq, load_update_closed]

/-- A lookup inside the validity window returns a stored well-formed
token. -/
lemma load_save_hit (d : Demo) (fs : FS) (t now : ℚ) (u s : String) (E : ℚ)
    (hwf : pyTruthy (decode_token_claims s) = true)
    (hnow : now < t + E - 60) :
    load_cached_token d (save_token_to_cache d fs t u (.str s) (.num E) true) now u
      = some s := by
  rw [load_save_closed, if_pos (ne_empty_of_truthy_decode s hwf), if_pos hnow, if_pos hwf]

/-- A lookup at or past `t + E - 60` misses, whatever the token. -/
lemma load_save_expired (d : Demo) (fs : FS) (t now : ℚ) (u s : String) (E : ℚ)
    (h : t + E - 60 ≤ now) :
    load_cached_token d (save_token_to_cache d fs t u (.str s) (.num E) true) now u
      = none := by
  rw [load_save_closed]
  cases hne : (!s.data.isEmpty) with
  | false => simp
  | true => simp [if_neg (not_lt.mpr h)]

/-- A lookup of a stored token whose claims do not decode misses, at every
time. -/
lemma load_save_malformed (d : Demo) (fs : FS) (t now : ℚ) (u s : String) (E : ℚ)
    (hmal : pyTruthy (decode_token_claims s) = false) :
    load_cached_token d (save_token_to_cache d fs t u (.str s) (.num E) true) now u
      = none := by
  rw [load_save_closed, hmal]
  cases hne : (!s.data.isEmpty) with
  | false => simp
  | true => cases h : decide (now < t + E - 60) <;> simp_all

set_option maxRecDepth 100000 in
unseal Rat.add Rat.sub in
/-- C1, counterexample: the claim quantifies over every stored token, but
a stored token whose claims do not decode (here the one-segment token
`"bad"`) is not returned even strictly inside the validity window: the
lookup at `now = 0 < issued_at + E - 60` returns none where the claim
says it returns the token. -/
theorem cache_window_cex :
    (0 : ℚ) < 0 + 300 - 60 ∧
    load_cached_token demo0
      (save_token_to_cache demo0 fsEmpty 0 "alice" (.str badSegTok) (.num 300) true)
      0 "alice" = none :=
  ⟨by decide, by decide⟩

/-- C1 (amended): for every subject and every token stored with lifetime
`E` at time `issued_at`, a lookup immediately after the store returns the
token at every `now < issued_at + E - 60` provided the token passes the
structural claim validation (`decode_token_claims` yields truthy claims),
and returns none at every `now ≥ issued_at + E - 60` for every token. -/
theorem cache_window_amended (d : Demo) (fs : FS) (t now : ℚ) (u s : String) (E : ℚ) :
    (pyTruthy (decode_token_claims s) = true → now < t + E - 60 →
      load_cached_token d (save_token_to_cache d fs t u (.str s) (.num E) true) now u
        = some s)
    ∧ (t + E - 60 ≤ now →
      load_cached_token d (save_token_to_cache d fs t u (.str s) (.num E) true) now u
        = none) :=
  ⟨fun hwf hnow => load_save_hit d fs t now u s E hwf hnow,
   fun h => load_save_expired d fs t now u s E h⟩

set_option maxRecDepth 100000 in
unseal Rat.add Rat.sub in
/-- C1, witness: a concrete well-formed token stored at time 0 with
lifetime 300 is returned at time 100 and no longer at time 240. -/
theorem cache_window_witness :
    load_cached_token demo0
      (save_token_to_cache demo0 fsEmpty 0 "alice" (.str goodTok) (.num 300) true)
      100 "alice" = some goodTok ∧
    load_cached_token demo0
      (save_token_to_cache demo0 fsEmpty 0 "alice" (.str goodTok) (.num 300) true)
      240 "alice" = none :=
  ⟨(cache_window_amended demo0 fsEmpty 0 100 "alice" goodTok 300).1 (by decide) (by decide),
   (cache_window_amended demo0 fsEmpty 0 240 "alice" goodTok 300).2 (by decide)⟩

set_option maxRecDepth 100000 in
unseal Rat.add Rat.sub in
/-- C2, counterexample: the claim quantifies over every token string, but
a store of the malformed token `"bad"` followed by a lookup 10 seconds
later (well within the 240-second window) yields none, not the token. -/
theorem roundtrip_cex :
    (10 : ℚ) - 0 < 240 ∧
    load_cached_token demo0
      (save_token_to_cache demo0 fsEmpty 0 "bob" (.str badSegTok) (.num 300) true)
      10 "bob" = none :=
  ⟨by decide, by decide⟩

/-- C2 (amended): for every subject and every token string `tok` that
passes the structural claim validation, `save_token_to_cache(subject,
tok, 300)` followed by `load_cached_token(subject)` within the validity
window (less than 240 seconds later) yields a token equal to `tok`. -/
theorem roundtrip_amended (d : Demo) (fs : FS) (t now : ℚ) (u s : String)
    (hwf : pyTruthy (decode_token_claims s) = true)
    (h1 : t ≤ now) (h2 : now - t < 240) :
    load_cached_token d (save_token_to_cache d fs t u (.str s) (.num 300) true) now u
      = some s := by
  apply load_save_hit d fs t now u s 300 hwf
  linarith

set_option maxRecDepth 100000 in
unseal Rat.add Rat.sub in
/-- C2, witness: the concrete well-formed token stored at time 5 is read
back unchanged at time 200. -/
theorem roundtrip_witness :
    load_cached_token demo0
      (save_token_to_cache demo0 fsEmpty 5 "bob" (.str goodTok) (.num 300) true)
      200 "bob" = some goodTok :=
  roundtrip_amended demo0 fsEmpty 5 200 "bob" goodTok (by decide) (by decide) (by decide)

/-- C3: a lookup returns a cached token only if the token validates as
structurally well-formed (`decode_token_claims` yields truthy claims);
and every cached token failing that validation is treated as a miss — the
lookup returns none at every time, even inside the validity window. -/
theorem hit_requires_wellformed (d : Demo) (fs : FS) (now : ℚ) (u s : String) :
    (load_cached_token d fs now u = some s →
      pyTruthy (decode_token_claims s) = true)
    ∧ (pyTruthy (decode_token_claims s) = false →
      ∀ fs2 t E,
        load_cached_token d (save_token_to_cache d fs2 t u (.str s) (.num E) true) now u
          = none) := by
  constructor
  · intro h
    unfold load_cached_token at h
    repeat' split at h
    all_goals simp_all
    obtain ⟨-, h⟩ := h
    repeat' split at h
    all_goals simp_all
  · intro hmal fs2 t E
    exact load_save_malformed d fs2 t now u s E hmal

set_option maxRecDepth 100000 in
unseal Rat.add Rat.sub in
/-- C3, witness: the well-formed token is accepted (instantiating the
first conjunct on a cache that stores it), and the malformed token
`"bad"` stored inside its validity window is still a miss. -/
theorem hit_requires_wellformed_witness :
    pyTruthy (decode_token_claims goodTok) = true ∧
    load_cached_token demo0
      (save_token_to_cache demo0 fsEmpty 0 "cara" (.str badSegTok) (.num 300) true)
      0 "cara" = none :=
  ⟨(hit_requires_wellformed demo0
      (save_token_to_cache demo0 fsEmpty 0 "dave" (.str goodTok) (.num 300) true)
      100 "dave" goodTok).1 (by decide),
   (hit_requires_wellformed demo0 fsEmpty 0 "cara" badSegTok).2 (by decide) fsEmpty 0 300⟩

/-- C6: whenever the persisted cache file fails to parse as JSON,
`load_cached_token` returns none (the `json.load` exception is caught);
no error escapes, since the function is total. -/
theorem malformed_cache_miss (d : Demo) (fs : FS) (now : ℚ) (u s : String)
    (hbad : jsonLoads s = none) :
    load_cached_token d (fsUpdate fs (get_token_cache_path d u) (.text s)) now u
      = none := by
  unfold load_cached_token
  rw [fsUpdate_self]
  simp [contentJson, hbad]

/-- C6, witness: a cache file holding the text `"not json"` makes the
lookup return none. -/
theorem malformed_cache_miss_witness :
    load_cached_token demo0
      (fsUpdate fsEmpty (get_token_cache_path demo0 "alice") (.text "not json"))
      0 "alice" = none :=
  malformed_cache_miss demo0 fsEmpty 0 "alice" "not json" rfl

/-- C7: for every token string with fewer than three dot-separated
segments, `decode_token_claims` returns the empty claims object; it is a
total function, so no input raises. -/
theorem short_token_empty_claims (s : String)
    (h : (pySplit '.' s.data []).length < 3) :
    decode_token_claims s = .obj [] := by
  have hne : (pySplit '.' s.data []).length ≠ 3 := Nat.ne_of_lt h
  simp [decode_token_claims, hne]

/-- C7, witness: the two-segment-free string `"ab"` (a single segment)
decodes to the empty claims object. -/
theorem short_token_empty_claims_witness :
    decode_token_claims "ab" = .obj [] ∧ (pySplit '.' "ab".data []).length < 3 :=
  ⟨short_token_empty_claims "ab" (by decide), by decide⟩

/-- String concatenation concatenates the underlying character lists. -/
lemma string_append_data (s t : String) : (s ++ t).data = s.data ++ t.data := rfl

/-- A string is its character list. -/
lemma string_mk_data (s : String) : String.mk s.data = s := by
  cases s
  rfl

/-- Two configurations with the same cache directory that map the same
username to the same cache path have the same fingerprint: the path
determines the 8-character key by cancelling the surrounding fixed
pieces. -/
lemma cacheKey_eq_of_path_eq (d1 d2 : Demo) (u : String)
    (hcd : d1.cache_dir = d2.cache_dir)
    (hp : get_token_cache_path d1 u = get_token_cache_path d2 u) :
    cacheKey d1 = cacheKey d2 := by
  have h := congrArg String.data hp
  simp only [get_token_cache_path, string_append_data, hcd] at h
  have h2 := List.append_cancel_right h
  have h3 := List.append_cancel_left h2
  calc cacheKey d1 = String.mk (cacheKey d1).data := (string_mk_data _).symm
    _ = String.mk (cacheKey d2).data := congrArg String.mk h3
    _ = cacheKey d2 := string_mk_data _

set_option maxRecDepth 100000 in
unseal Rat.add Rat.sub in
/-- C4, counterexample: two demo configurations with distinct
(keycloak_url, realm) pairs — same realm, different URLs — whose
truncated MD5 fingerprints collide; they map the same username to the
same cache file path, and a token stored under the first authority is
returned by a lookup under the second. -/
theorem fingerprint_collision_cex :
    (mkDemo "x" collUrl1 "cd").keycloak_url ≠ (mkDemo "x" collUrl2 "cd").keycloak_url ∧
    (mkDemo "x" collUrl1 "cd").realm = (mkDemo "x" collUrl2 "cd").realm ∧
    get_token_cache_path (mkDemo "x" collUrl1 "cd") "alice"
      = get_token_cache_path (mkDemo "x" collUrl2 "cd") "alice" ∧
    load_cached_token (mkDemo "x" collUrl2 "cd")
      (save_token_to_cache (mkDemo "x" collUrl1 "cd") fsEmpty 0 "alice"
        (.str goodTok) (.num 300) true)
      0 "alice" = some goodTok :=
  ⟨by decide, by decide, by decide, by decide⟩

/-- C4 (amended): distinct (keycloak_url, realm) pairs for the same
username map to distinct cache file paths whenever their truncated
8-character MD5 fingerprints differ — and then an entry stored under the
first configuration is invisible to a lookup under the second (the lookup
result is unchanged by the store). The truncation to 32 bits makes the
unconditional form of the claim false (see the collision
counterexample). -/
theorem fingerprint_separation_amended (d1 d2 : Demo) (u : String)
    (hcd : d1.cache_dir = d2.cache_dir)
    (hk : cacheKey d1 ≠ cacheKey d2) :
    get_token_cache_path d1 u ≠ get_token_cache_path d2 u ∧
    ∀ (fs : FS) (t now : ℚ) (tok ei : Json) (wo : Bool),
      load_cached_token d2 (save_token_to_cache d1 fs t u tok ei wo) now u
        = load_cached_token d2 fs now u := by
  have hpne : get_token_cache_path d1 u ≠ get_token_cache_path d2 u :=
    fun hp => hk (cacheKey_eq_of_path_eq d1 d2 u hcd hp)
  refine ⟨hpne, ?_⟩
  intro fs t now tok ei wo
  have hfs : save_token_to_cache d1 fs t u tok ei wo (get_token_cache_path d2 u)
      = fs (get_token_cache_path d2 u) := by
    unfold save_token_to_cache
    cases hpa : pyNumAdd t ei with
    | none => rfl
    | some ea =>
      cases wo with
      | false => rfl
      | true =>
        have hne : get_token_cache_path d2 u ≠ get_token_cache_path d1 u := Ne.symm hpne
        simp [fsUpdate, hne]
  unfold load_cached_token
  rw [hfs]

set_option maxRecDepth 100000 in
/-- C4, witness: two authorities whose fingerprints differ give the same
user distinct cache paths. -/
theorem fingerprint_separation_witness :
    get_token_cache_path (mkDemo "x" "https://a" "cd") "alice"
      ≠ get_token_cache_path (mkDemo "x" "https://b" "cd") "alice" :=
  (fingerprint_separation_amended (mkDemo "x" "https://a" "cd")
    (mkDemo "x" "https://b" "cd") "alice" rfl (by decide)).1

/-- C5: in the end-to-end scenario, the first resolution for `alice`
(empty cache, authority answering with a well-formed token and
`expires_in = 300`) performs exactly one authority call and stores the
token; a second resolution within 4 minutes performs zero authority
calls and returns the cached token; a third resolution at or after 5
minutes performs exactly one authority call again. -/
theorem end_to_end_cache_behavior (d : Demo) (t1 t2 t3 : ℚ) (tok pw cs : String)
    (hwf : pyTruthy (decode_token_claims tok) = true)
    (h12 : t1 ≤ t2) (h2 : t2 < t1 + 240) (h3 : t1 + 300 ≤ t3) :
    (aliceScenario d t1 t2 t3 tok pw cs).1.authorityCalls = 1 ∧
    (aliceScenario d t1 t2 t3 tok pw cs).1.token = .str tok ∧
    (aliceScenario d t1 t2 t3 tok pw cs).2.1.authorityCalls = 0 ∧
    (aliceScenario d t1 t2 t3 tok pw cs).2.1.token = .str tok ∧
    (aliceScenario d t1 t2 t3 tok pw cs).2.2.authorityCalls = 1 := by
  have hload1 : load_cached_token d fsEmpty t1 "alice" = none := rfl
  have hg1 : get_token d fsEmpty t1 "alice" pw cs (okResp tok 300) true
      = (.str tok, save_token_to_cache d fsEmpty t1 "alice" (.str tok) (.num 300) true) :=
    rfl
  have hload2 : load_cached_token d
      (save_token_to_cache d fsEmpty t1 "alice" (.str tok) (.num 300) true) t2 "alice"
      = some tok :=
    load_save_hit d fsEmpty t1 t2 "alice" tok 300 hwf (by linarith)
  have hload3 : load_cached_token d
      (save_token_to_cache d fsEmpty t1 "alice" (.str tok) (.num 300) true) t3 "alice"
      = none :=
    load_save_expired d fsEmpty t1 t3 "alice" tok 300 (by linarith)
  refine ⟨?_, ?_, ?_, ?_, ?_⟩ <;>
    simp [aliceScenario, resolveToken, hload1, hg1, hload2, hload3]

set_option maxRecDepth 100000 in
unseal Rat.add Rat.sub in
/-- C5, witness: the scenario at times 0, 100 and 300 with the concrete
well-formed token. -/
theorem end_to_end_witness :
    (aliceScenario demo0 0 100 300 goodTok "pw" "cs").1.authorityCalls = 1 ∧
    (aliceScenario demo0 0 100 300 goodTok "pw" "cs").1.token = .str goodTok ∧
    (aliceScenario demo0 0 100 300 goodTok "pw" "cs").2.1.authorityCalls = 0 ∧
    (aliceScenario demo0 0 100 300 goodTok "pw" "cs").2.1.token = .str goodTok ∧
    (aliceScenario demo0 0 100 300 goodTok "pw" "cs").2.2.authorityCalls = 1 :=
  end_to_end_cache_behavior demo0 0 100 300 goodTok "pw" "cs"
    (by decide) (by decide) (by decide) (by decide)

set_option maxRecDepth 100000 in
/-- C8: the code bug at the failing input. The middle segment of
`urlsafeTok` is exactly the unpadded base64url encoding of the JSON
object with claim `sub = "?aa"` (whose encoding uses the base64url
alphabet character `_`), yet `decode_token_claims` returns the empty
claims object instead of that JSON object: `base64.b64decode` without
`urlsafe` discards `-` and `_`, so the decode raises and is caught. -/
theorem b64url_payload_code_bug :
    urlsafeTok = "hh." ++ String.mk (b64urlEncode (strBytes "\x7b\"sub\":\"?aa\"\x7d")) ++ ".ss" ∧
    jsonLoads "\x7b\"sub\":\"?aa\"\x7d" = some (.obj [("sub", .str "?aa")]) ∧
    decode_token_claims urlsafeTok = .obj [] :=
  ⟨rfl, rfl, rfl⟩

set_option maxRecDepth 100000 in
/-- C9, counterexample: with a token requester answering HTTP 200 and the
malformed (single-segment) token `"bad"`, resolution does not fail: it
returns the token and stores it in the cache. -/
theorem fresh_malformed_cex :
    (resolveToken demo0 fsEmpty 0 "alice" "pw" "secret" (okResp badSegTok 300) true true).token
      = .str badSegTok ∧
    ((resolveToken demo0 fsEmpty 0 "alice" "pw" "secret" (okResp badSegTok 300) true true).fs
      (get_token_cache_path demo0 "alice")).isSome = true ∧
    (pySplit '.' badSegTok.data []).length ≠ 3 :=
  ⟨rfl, rfl, by decide⟩

/-- C9 (amended): a malformed token is treated as a miss when read back
from the cache, but a freshly issued malformed token is not fatal:
`get_token` returns it and stores it in the cache; it is only discarded
on the next cached read. -/
theorem fresh_malformed_not_fatal_amended (d : Demo) (fs : FS) (t : ℚ)
    (u pw cs tok : String) (E : ℚ)
    (hmal : pyTruthy (decode_token_claims tok) = false) :
    (get_token d fs t u pw cs (okResp tok E) true).1 = .str tok ∧
    (get_token d fs t u pw cs (okResp tok E) true).2
      = save_token_to_cache d fs t u (.str tok) (.num E) true ∧
    ∀ now, load_cached_token d (get_token d fs t u pw cs (okResp tok E) true).2 now u
      = none := by
  refine ⟨rfl, rfl, ?_⟩
  intro now
  show load_cached_token d (save_token_to_cache d fs t u (.str tok) (.num E) true) now u
    = none
  exact load_save_malformed d fs t now u tok E hmal

set_option maxRecDepth 100000 in
unseal Rat.add Rat.sub in
/-- C9, witness: the malformed token `"bad"` freshly issued by the
authority is returned by `get_token`, and the immediately following
cached read misses. -/
theorem fresh_malformed_witness :
    (get_token demo0 fsEmpty 0 "erin" "pw" "secret" (okResp badSegTok 300) true).1
      = .str badSegTok ∧
    load_cached_token demo0
      (get_token demo0 fsEmpty 0 "erin" "pw" "secret" (okResp badSegTok 300) true).2
      0 "erin" = none :=
  ⟨(fresh_malformed_not_fatal_amended demo0 fsEmpty 0 "erin" "pw" "secret" badSegTok 300
      (by decide)).1,
   (fresh_malformed_not_fatal_amended demo0 fsEmpty 0 "erin" "pw" "secret" badSegTok 300
      (by decide)).2.2 0⟩

/-- C10: a failing cache write never causes token acquisition to fail —
with the file write raising (modelled by `writeOk = false`), `get_token`
still returns the access token of a successful authority response, and
the cache is left unchanged. -/
theorem cache_write_failure_nonfatal (d : Demo) (fs : FS) (t : ℚ)
    (u pw cs : String) (tok E : Json) :
    get_token d fs t u pw cs
      (some ⟨200, .obj [("access_token", tok), ("expires_in", E)]⟩) false
      = (tok, fs) := by
  cases E <;> rfl

end RhoaiAuthDemo
